import Mathlib

/-!
Shallow embedding of the deepl-go client library (deepl.go).

The library builds authenticated HTTP requests for two endpoints
(`/v2/translate` and `/v2/usage`), sends them, and maps the response
status code and JSON body to a typed result or a typed error.

Modelling conventions:
* The process environment variable `DEEPL_API_KEY` is an explicit
  `Option String` argument (`none` = unset, `some ""` = set but empty).
* An HTTP transport (`http.Client.Do`) is an explicit function from the
  built request to a transport outcome; a transport-level failure
  (connection error, cancellation, and also a failure of
  `ioutil.ReadAll` on the response body) is `TransportResult.failure`.
* Response bytes are abstracted to `Body`: empty, a well-formed JSON
  document, or non-empty bytes that are not valid JSON.
* Go's `(*T, error)` return pair is kept as an explicit pair of options
  (`CallResult`), together with the client record after the call, so
  that frame properties are statable.
-/

namespace Deepl

/-- One translated segment: mirrors struct `translation` in deepl.go with
JSON fields `detected_source_language` and `text`. -/
structure Translation where
  detectedSourceLanguage : String
  text : String
deriving DecidableEq, Repr

/-- Mirrors struct `TranslateResponse` in deepl.go (`translations` array). -/
structure TranslateResponse where
  translations : List Translation
deriving DecidableEq, Repr

/-- Mirrors struct `ErrorResponse` in deepl.go: the provider error body
`\x7b"message": str\x7d`. -/
structure ErrorResponse where
  errMessage : String
deriving DecidableEq, Repr

/-- Mirrors struct `AccountStatus` in deepl.go (`character_count`,
`character_limit`). -/
structure AccountStatus where
  characterCount : Int
  characterLimit : Int
deriving DecidableEq, Repr

/-- JSON values: the model of a well-formed JSON document. -/
inductive Json where
  | null
  | bool (b : Bool)
  | num (n : Int)
  | str (s : String)
  | arr (items : List Json)
  | obj (fields : List (String × Json))

/-- A response body as read by `ioutil.ReadAll` in `responseParse`:
empty bytes, bytes forming a well-formed JSON document, or non-empty
bytes that are not valid JSON (on which `json.Unmarshal` fails). -/
inductive Body where
  | empty
  | wellFormed (j : Json)
  | malformed

/-- `len(bodyBytes) != 0` test of deepl.go line 91 (negated). -/
def Body.isEmpty : Body → Bool
  | Body.empty => true
  | _ => false

/-- The errors deepl.go produces, one constructor per distinct `xerrors`
message.  `badRequest` carries the full message built at line 107 since
it embeds the provider message.  The spec file groups these into
categories: see `DeeplError.isConfigError` and `DeeplError.isDecodeError`. -/
inductive DeeplError where
  | parseURLFailed
  | apiKeyNotSet
  | apiKeyEmpty
  | sendRequestFailed
  | errorBodyDecodeFailed
  | jsonParseFailed
  | badRequest (message : String)
  | authorizationFailed
  | notFound
  | requestTooLarge
  | tooManyRequests
  | quotaExceeded
  | serviceUnavailable
  | internalError
  | unexpectedError
deriving DecidableEq, Repr

/-- The spec's `ConfigError` category: bad base URL, missing or empty
credential. -/
def DeeplError.isConfigError : DeeplError → Bool
  | DeeplError.parseURLFailed => true
  | DeeplError.apiKeyNotSet => true
  | DeeplError.apiKeyEmpty => true
  | _ => false

/-- The spec's `DecodeError` category: a response body that does not
decode as the expected JSON shape. -/
def DeeplError.isDecodeError : DeeplError → Bool
  | DeeplError.errorBodyDecodeFailed => true
  | DeeplError.jsonParseFailed => true
  | _ => false

/-- Last binding of `key` in a JSON object: encoding/json decodes a
duplicated key last-wins.  (Go additionally admits case-insensitive key
matches; the claims only concern exact keys.) -/
def lookupField (fields : List (String × Json)) (key : String) : Option Json :=
  ((fields.filter fun f => f.1 == key).getLast?).map fun f => f.2

/-- Decode an optional string field the way `json.Unmarshal` fills a
fresh struct: an absent or null field leaves the zero value `""`, a
string is taken verbatim, any other JSON type is an error. -/
def stringField (fields : List (String × Json)) (key : String) : Option String :=
  match lookupField fields key with
  | none => some ""
  | some Json.null => some ""
  | some (Json.str s) => some s
  | some _ => none

/-- Decode an optional integer field: absent or null leaves the zero
value 0, a number is taken verbatim, any other JSON type is an error. -/
def intField (fields : List (String × Json)) (key : String) : Option Int :=
  match lookupField fields key with
  | none => some (0 : Int)
  | some Json.null => some (0 : Int)
  | some (Json.num n) => some n
  | some _ => none

/-- `json.Unmarshal` of one element of the `translations` array into
struct `translation`: null is a no-op on the zero struct, an object
fills the two string fields, anything else is a type error. -/
def decodeTranslation : Json → Option Translation
  | Json.null => some { detectedSourceLanguage := "", text := "" }
  | Json.obj fields =>
      match stringField fields "detected_source_language",
            stringField fields "text" with
      | some d, some t => some { detectedSourceLanguage := d, text := t }
      | _, _ => none
  | _ => none

/-- Element-wise decoding of the `translations` array (encoding/json
decodes a JSON array into a slice element by element, failing if any
element fails). -/
def decodeTranslations : List Json → Option (List Translation)
  | [] => some []
  | j :: js =>
      match decodeTranslation j, decodeTranslations js with
      | some t, some ts => some (t :: ts)
      | _, _ => none

/-- `json.Unmarshal` into struct `TranslateResponse`. -/
def decodeTranslateResponse : Json → Option TranslateResponse
  | Json.null => some { translations := [] }
  | Json.obj fields =>
      match lookupField fields "translations" with
      | none => some { translations := [] }
      | some Json.null => some { translations := [] }
      | some (Json.arr xs) =>
          match decodeTranslations xs with
          | some ts => some { translations := ts }
          | none => none
      | some _ => none
  | _ => none

/-- `json.Unmarshal` into struct `ErrorResponse` (field `message`). -/
def decodeErrorResponse : Json → Option ErrorResponse
  | Json.null => some { errMessage := "" }
  | Json.obj fields =>
      match stringField fields "message" with
      | some m => some { errMessage := m }
      | none => none
  | _ => none

/-- `json.Unmarshal` into struct `AccountStatus`. -/
def decodeAccountStatus : Json → Option AccountStatus
  | Json.null => some { characterCount := 0, characterLimit := 0 }
  | Json.obj fields =>
      match intField fields "character_count",
            intField fields "character_limit" with
      | some c, some l => some { characterCount := c, characterLimit := l }
      | _, _ => none
  | _ => none

/-- `decodeBody` of deepl.go, specialised by a target-type decoder:
`json.Unmarshal` fails on empty or malformed bytes, and otherwise
decodes the JSON document. -/
def decodeBody {α : Type} (dec : Json → Option α) : Body → Option α
  | Body.wellFormed j => dec j
  | _ => none

/-- The message built by `responseParse` for status 400 (deepl.go line
107), embedding the provider message. -/
def badRequestMessage (errMessage : String) : String :=
  "Bad request. Please check error message and your parameters. Error message is "
    ++ errMessage

/-- The status-code switch of `responseParse` (deepl.go lines 106-126)
for the non-200 statuses, given the extracted provider message. -/
def statusToError (status : Nat) (errMessage : String) : DeeplError :=
  if status = 400 then DeeplError.badRequest (badRequestMessage errMessage)
  else if status = 403 then DeeplError.authorizationFailed
  else if status = 404 then DeeplError.notFound
  else if status = 413 then DeeplError.requestTooLarge
  else if status = 429 then DeeplError.tooManyRequests
  else if status = 456 then DeeplError.quotaExceeded
  else if status = 503 then DeeplError.serviceUnavailable
  else if 500 ≤ status then DeeplError.internalError
  else DeeplError.unexpectedError

/-- An HTTP response as `responseParse` sees it after `ioutil.ReadAll`
succeeded: status code plus body bytes. -/
structure HttpResponse where
  statusCode : Nat
  body : Body

/-- The provider-message extraction step of `responseParse` (deepl.go
lines 88-97): on a non-200 status with a non-empty body, decode the body
as `ErrorResponse`, returning early with an error if that fails;
otherwise the message stays `""`. -/
def errorMessagePre (status : Nat) (body : Body) : Except DeeplError String :=
  if status ≠ 200 ∧ body.isEmpty = false then
    match decodeBody decodeErrorResponse body with
    | none => Except.error DeeplError.errorBodyDecodeFailed
    | some er => Except.ok er.errMessage
  else Except.ok ""

/-- `responseParse` of deepl.go (lines 80-127): provider-message
extraction, then the status switch; status 200 decodes the success body
with the target decoder `dec`. -/
def responseParse {α : Type} (dec : Json → Option α) (resp : HttpResponse) :
    Except DeeplError α :=
  match errorMessagePre resp.statusCode resp.body with
  | Except.error e => Except.error e
  | Except.ok errMessage =>
      if resp.statusCode = 200 then
        match decodeBody dec resp.body with
        | none => Except.error DeeplError.jsonParseFailed
        | some v => Except.ok v
      else Except.error (statusToError resp.statusCode errMessage)

/-- `getAPIKey` of deepl.go (lines 58-71): read the credential from the
environment, failing when it is unset or empty. -/
def getAPIKey (env : Option String) : Except DeeplError String :=
  match env with
  | none => Except.error DeeplError.apiKeyNotSet
  | some val =>
      if val = "" then Except.error DeeplError.apiKeyEmpty
      else Except.ok val

/-- A logger handle (`*log.Logger`); the model only tracks its identity. -/
structure Logger where
  handle : Nat
deriving DecidableEq, Repr

/-- The logger `New` installs when the caller passes nil (deepl.go line 30). -/
def defaultLogger : Logger :=
  { handle := 0 }

/-- A parsed base URL (`*url.URL`), restricted to the components the
client reads: scheme, host, path and query. -/
structure BaseURL where
  scheme : String
  host : String
  path : String
  query : List (String × String)
deriving DecidableEq, Repr

/-- Split a character list at the first occurrence of `sep`: the part
before it, and the part after it when `sep` occurs at all. -/
def splitFirst (sep : Char) : List Char → List Char × Option (List Char)
  | [] => ([], none)
  | c :: rest =>
      if c = sep then ([], some rest)
      else
        let r := splitFirst sep rest
        (c :: r.1, r.2)

/-- Split a character list on every occurrence of `sep`. -/
def splitAll (sep : Char) : List Char → List (List Char)
  | [] => [[]]
  | c :: rest =>
      if c = sep then [] :: splitAll sep rest
      else
        match splitAll sep rest with
        | [] => [[c]]
        | g :: gs => (c :: g) :: gs

/-- Parse the raw query part of a URL (absent, or the characters after
the first question mark) into key/value pairs. -/
def parseQueryChars : Option (List Char) → List (String × String)
  | none => []
  | some cs =>
      if cs = [] then []
      else
        (splitAll '&' cs).map fun kv =>
          let p := splitFirst '=' kv
          (String.mk p.1,
           match p.2 with
           | none => ""
           | some v => String.mk v)

/-- Modelled from the library `net/url` (outside this repository), which
`New` calls: parsing fails exactly when the string contains an ASCII
control character — the failure mode of `url.Parse` — and otherwise
splits the string into scheme (up to the first colon when followed by
two slashes), host (up to the next slash), path, and query (after the
first question mark). -/
def parseURL (s : String) : Option BaseURL :=
  if s.data.any (fun ch => decide (ch.toNat < 32 ∨ ch.toNat = 127)) then none
  else
    let mq := splitFirst '?' s.data
    let query := parseQueryChars mq.2
    let schemeSplit := splitFirst ':' mq.1
    match schemeSplit.2 with
    | some rest =>
        if rest.take 2 = ['/', '/'] then
          let hostPath := splitFirst '/' (rest.drop 2)
          some { scheme := String.mk schemeSplit.1
                 host := String.mk hostPath.1
                 path :=
                   match hostPath.2 with
                   | none => ""
                   | some p => String.mk ('/' :: p)
                 query := query }
        else
          some { scheme := "", host := "", path := String.mk mq.1, query := query }
    | none =>
        some { scheme := "", host := "", path := String.mk mq.1, query := query }

/-- Identity of the HTTP transport handle (`*http.Client`); `New` always
installs `http.DefaultClient`. -/
def defaultHTTPClient : Nat :=
  0

/-- Mirrors struct `Client` in deepl.go: base URL, transport handle and
logger.  The transport's behaviour is passed separately to each call as
a `Transport` function. -/
structure Client where
  baseURL : BaseURL
  httpClient : Nat
  logger : Logger
deriving DecidableEq, Repr

/-- `New` of deepl.go (lines 22-38): parse the base URL, failing on a
malformed string; install the default logger when none is given.  `New`
is a pure function of its two arguments — no transport is involved, so
no network activity can occur during construction. -/
def New (rawBaseURL : String) (logger : Option Logger) : Except DeeplError Client :=
  match parseURL rawBaseURL with
  | none => Except.error DeeplError.parseURLFailed
  | some baseURL =>
      let lg :=
        match logger with
        | none => defaultLogger
        | some l => l
      Except.ok { baseURL := baseURL, httpClient := defaultHTTPClient, logger := lg }

/-- `path.Join(base, seg1, seg2)` for a cleaned base path that does not
end in a slash (the form `url.Parse` produces for the base URLs the
client accepts). -/
def pathJoin (base seg1 seg2 : String) : String :=
  if base = "" then seg1 ++ "/" ++ seg2
  else base ++ "/" ++ seg1 ++ "/" ++ seg2

/-- An outbound HTTP request as the client builds it: method, the copied
URL components, the accumulated query pairs, and the `User-Agent`
header.  (On the wire `url.Values.Encode` re-orders the query pairs by
key; the pairs themselves are what the claims concern.) -/
structure Request where
  method : String
  scheme : String
  host : String
  path : String
  query : List (String × String)
  userAgent : String
deriving DecidableEq, Repr

/-- Outcome of handing a request to the transport: a readable response,
or a transport failure (`http.Client.Do` error, cancellation, or a
response-body read error). -/
inductive TransportResult where
  | ok (resp : HttpResponse)
  | failure

/-- The behaviour of the HTTP transport during one call. -/
abbrev Transport : Type :=
  Request → TransportResult

/-- What a call returns: the Go result pointer (`none` = nil), the Go
error value (`none` = nil), and the client record after the call. -/
structure CallResult (α : Type) where
  result : Option α
  err : Option DeeplError
  client : Client

/-- The request-building prefix of `TranslateSentence` (deepl.go lines
176-202): copy the base URL, join the `/v2/translate` path, read the
credential (failing first when it is unset or empty), then append the
`auth_key`, `text`, `target_lang`, `source_lang` query parameters in the
order of the `q.Add` calls, and set the `User-Agent` header. -/
def translateRequest (c : Client) (env : Option String)
    (text sourceLang targetLang : String) : Except DeeplError Request :=
  match getAPIKey env with
  | Except.error e => Except.error e
  | Except.ok apiKey =>
      Except.ok
        { method := "POST"
          scheme := c.baseURL.scheme
          host := c.baseURL.host
          path := pathJoin c.baseURL.path "v2" "translate"
          query := c.baseURL.query ++
            [("auth_key", apiKey), ("text", text),
             ("target_lang", targetLang), ("source_lang", sourceLang)]
          userAgent := "Deepl-Go-Client" }

/-- The request-building prefix of `GetAccountStatus` (deepl.go lines
132-155): as `translateRequest`, against `/v2/usage`, with `auth_key` as
the only added query parameter. -/
def usageRequest (c : Client) (env : Option String) : Except DeeplError Request :=
  match getAPIKey env with
  | Except.error e => Except.error e
  | Except.ok apiKey =>
      Except.ok
        { method := "POST"
          scheme := c.baseURL.scheme
          host := c.baseURL.host
          path := pathJoin c.baseURL.path "v2" "usage"
          query := c.baseURL.query ++ [("auth_key", apiKey)]
          userAgent := "Deepl-Go-Client" }

/-- `TranslateSentence` of deepl.go (lines 173-219): build the request
(credential errors surface here, before the transport is touched), send
it, and parse the response with `decodeTranslateResponse`.  Every error
path returns a nil result pointer; the client record is only read. -/
def TranslateSentence (c : Client) (env : Option String) (transport : Transport)
    (text sourceLang targetLang : String) : CallResult TranslateResponse :=
  match translateRequest c env text sourceLang targetLang with
  | Except.error e => { result := none, err := some e, client := c }
  | Except.ok req =>
      match transport req with
      | TransportResult.failure =>
          { result := none, err := some DeeplError.sendRequestFailed, client := c }
      | TransportResult.ok resp =>
          match responseParse decodeTranslateResponse resp with
          | Except.error e => { result := none, err := some e, client := c }
          | Except.ok v => { result := some v, err := none, client := c }

/-- `GetAccountStatus` of deepl.go (lines 129-171): same shape as
`TranslateSentence` against `/v2/usage`, parsing with
`decodeAccountStatus`. -/
def GetAccountStatus (c : Client) (env : Option String) (transport : Transport) :
    CallResult AccountStatus :=
  match usageRequest c env with
  | Except.error e => { result := none, err := some e, client := c }
  | Except.ok req =>
      match transport req with
      | TransportResult.failure =>
          { result := none, err := some DeeplError.sendRequestFailed, client := c }
      | TransportResult.ok resp =>
          match responseParse decodeAccountStatus resp with
          | Except.error e => { result := none, err := some e, client := c }
          | Except.ok v => { result := some v, err := none, client := c }

/-! ## Helper lemmas -/

lemma responseParse_eq_statusToError {α : Type} (dec : Json → Option α)
    (status : Nat) (body : Body) (m : String) (h200 : status ≠ 200)
    (hpre : errorMessagePre status body = Except.ok m) :
    responseParse dec { statusCode := status, body := body } =
      Except.error (statusToError status m) := by
  simp [responseParse, hpre, h200]

lemma responseParse_200 {α : Type} (dec : Json → Option α) (body : Body) :
    responseParse dec { statusCode := 200, body := body } =
      (match decodeBody dec body with
       | some v => Except.ok v
       | none => Except.error DeeplError.jsonParseFailed) := by
  have hpre : errorMessagePre 200 body = Except.ok "" := by
    simp [errorMessagePre]
  cases hd : decodeBody dec body with
  | none => simp [responseParse, hpre, hd]
  | some v => simp [responseParse, hpre, hd]

lemma statusToError_isDecodeError (status : Nat) (m : String) :
    (statusToError status m).isDecodeError = false := by
  unfold statusToError
  repeat' split
  all_goals rfl

/-! ## Claims -/

/-- C1: For every HTTP response processed by `responseParse` whose
provider-message extraction step succeeds with message `m`, the status
code maps to exactly the outcome of the spec's table, in its priority
order: 200 decodes the success body; 400 yields a bad-request error
whose message embeds the provider message; 403 authorization failed;
404 resource not found; 413 request too large; 429 too many requests;
456 quota exceeded; 503 resource unavailable; any other status at
least 500 internal error; any other non-200 status unexpected error. -/
theorem responseParse_status_table {α : Type} (dec : Json → Option α)
    (status : Nat) (body : Body) (m : String)
    (hpre : errorMessagePre status body = Except.ok m) :
    (status = 200 →
      responseParse dec { statusCode := status, body := body } =
        (match decodeBody dec body with
         | some v => Except.ok v
         | none => Except.error DeeplError.jsonParseFailed)) ∧
    (status = 400 →
      responseParse dec { statusCode := status, body := body } =
        Except.error (DeeplError.badRequest (badRequestMessage m))) ∧
    (status = 403 →
      responseParse dec { statusCode := status, body := body } =
        Except.error DeeplError.authorizationFailed) ∧
    (status = 404 →
      responseParse dec { statusCode := status, body := body } =
        Except.error DeeplError.notFound) ∧
    (status = 413 →
      responseParse dec { statusCode := status, body := body } =
        Except.error DeeplError.requestTooLarge) ∧
    (status = 429 →
      responseParse dec { statusCode := status, body := body } =
        Except.error DeeplError.tooManyRequests) ∧
    (status = 456 →
      responseParse dec { statusCode := status, body := body } =
        Except.error DeeplError.quotaExceeded) ∧
    (status = 503 →
      responseParse dec { statusCode := status, body := body } =
        Except.error DeeplError.serviceUnavailable) ∧
    (status ∉ ([200, 400, 403, 404, 413, 429, 456, 503] : List Nat) →
      500 ≤ status →
      responseParse dec { statusCode := status, body := body } =
        Except.error DeeplError.internalError) ∧
    (status ∉ ([200, 400, 403, 404, 413, 429, 456, 503] : List Nat) →
      status < 500 →
      responseParse dec { statusCode := status, body := body } =
        Except.error DeeplError.unexpectedError) := by
  refine ⟨fun h => ?_, fun h => ?_, fun h => ?_, fun h => ?_, fun h => ?_,
    fun h => ?_, fun h => ?_, fun h => ?_, fun h1 h2 => ?_, fun h1 h2 => ?_⟩
  · subst h; exact responseParse_200 dec body
  · subst h
    rw [responseParse_eq_statusToError dec 400 body m (by decide) hpre]
    simp [statusToError]
  · subst h
    rw [responseParse_eq_statusToError dec 403 body m (by decide) hpre]
    simp [statusToError]
  · subst h
    rw [responseParse_eq_statusToError dec 404 body m (by decide) hpre]
    simp [statusToError]
  · subst h
    rw [responseParse_eq_statusToError dec 413 body m (by decide) hpre]
    simp [statusToError]
  · subst h
    rw [responseParse_eq_statusToError dec 429 body m (by decide) hpre]
    simp [statusToError]
  · subst h
    rw [responseParse_eq_statusToError dec 456 body m (by decide) hpre]
    simp [statusToError]
  · subst h
    rw [responseParse_eq_statusToError dec 503 body m (by decide) hpre]
    simp [statusToError]
  · have h200 : status ≠ 200 := fun hx => h1 (by simp [hx])
    have h400 : status ≠ 400 := fun hx => h1 (by simp [hx])
    have h403 : status ≠ 403 := fun hx => h1 (by simp [hx])
    have h404 : status ≠ 404 := fun hx => h1 (by simp [hx])
    have h413 : status ≠ 413 := fun hx => h1 (by simp [hx])
    have h429 : status ≠ 429 := fun hx => h1 (by simp [hx])
    have h456 : status ≠ 456 := fun hx => h1 (by simp [hx])
    have h503 : status ≠ 503 := fun hx => h1 (by simp [hx])
    rw [responseParse_eq_statusToError dec status body m h200 hpre]
    simp [statusToError, h400, h403, h404, h413, h429, h456, h503, h2]
  · have h200 : status ≠ 200 := fun hx => h1 (by simp [hx])
    have h400 : status ≠ 400 := fun hx => h1 (by simp [hx])
    have h403 : status ≠ 403 := fun hx => h1 (by simp [hx])
    have h404 : status ≠ 404 := fun hx => h1 (by simp [hx])
    have h413 : status ≠ 413 := fun hx => h1 (by simp [hx])
    have h429 : status ≠ 429 := fun hx => h1 (by simp [hx])
    have h456 : status ≠ 456 := fun hx => h1 (by simp [hx])
    have h503 : status ≠ 503 := fun hx => h1 (by simp [hx])
    have h500 : ¬ 500 ≤ status := by omega
    rw [responseParse_eq_statusToError dec status body m h200 hpre]
    simp [statusToError, h400, h403, h404, h413, h429, h456, h503, h500]

/-- Witness for C1 at status 403 with an empty body. -/
theorem responseParse_status_table_witness :
    errorMessagePre 403 Body.empty = Except.ok "" ∧
    responseParse decodeTranslateResponse { statusCode := 403, body := Body.empty } =
      Except.error DeeplError.authorizationFailed :=
  ⟨rfl,
   (responseParse_status_table decodeTranslateResponse 403 Body.empty "" rfl).2.2.1 rfl⟩

/-- C4: For every response with a non-200 status and a non-empty body,
`responseParse` first decodes the body as the provider error object to
extract a message: when that decode fails the call returns the
decode-category error (rather than any error of the status table, which
never produces it), and when it succeeds the status-table error is
built from the extracted message. -/
theorem error_body_decode_failure {α : Type} (dec : Json → Option α)
    (status : Nat) (body : Body) (h200 : status ≠ 200)
    (hbody : body.isEmpty = false) :
    (decodeBody decodeErrorResponse body = none →
      responseParse dec { statusCode := status, body := body } =
        Except.error DeeplError.errorBodyDecodeFailed ∧
      DeeplError.errorBodyDecodeFailed.isDecodeError = true) ∧
    (∀ er, decodeBody decodeErrorResponse body = some er →
      responseParse dec { statusCode := status, body := body } =
        Except.error (statusToError status er.errMessage)) ∧
    (∀ m, statusToError status m ≠ DeeplError.errorBodyDecodeFailed) := by
  refine ⟨fun hd => ⟨?_, rfl⟩, fun er hd => ?_, fun m => ?_⟩
  · simp [responseParse, errorMessagePre, h200, hbody, hd]
  · have hpre : errorMessagePre status body = Except.ok er.errMessage := by
      simp [errorMessagePre, h200, hbody, hd]
    exact responseParse_eq_statusToError dec status body er.errMessage h200 hpre
  · intro hx
    have := statusToError_isDecodeError status m
    rw [hx] at this
    exact absurd this (by decide)

/-- Witness for C4 at status 400 with a malformed body. -/
theorem error_body_decode_failure_witness :
    responseParse decodeTranslateResponse { statusCode := 400, body := Body.malformed } =
      Except.error DeeplError.errorBodyDecodeFailed ∧
    statusToError 400 "" ≠ DeeplError.errorBodyDecodeFailed := by
  have h := error_body_decode_failure decodeTranslateResponse 400 Body.malformed
    (by decide) rfl
  exact ⟨(h.1 rfl).1, h.2.2 ""⟩

/-- C10: For every response with a non-200 status and an empty body,
the provider-error decode step is skipped entirely: the status-table
error built from the empty message is returned as is, no status-table
error is of the decode category, and in the 400 case the message embeds
the empty provider message. -/
theorem empty_body_skips_error_decode {α : Type} (dec : Json → Option α)
    (status : Nat) (h200 : status ≠ 200) :
    responseParse dec { statusCode := status, body := Body.empty } =
      Except.error (statusToError status "") ∧
    (∀ m, (statusToError status m).isDecodeError = false) ∧
    (status = 400 →
      statusToError status "" = DeeplError.badRequest (badRequestMessage "")) := by
  refine ⟨?_, fun m => statusToError_isDecodeError status m, fun h => ?_⟩
  · have hpre : errorMessagePre status Body.empty = Except.ok "" := by
      simp [errorMessagePre, Body.isEmpty]
    exact responseParse_eq_statusToError dec status Body.empty "" h200 hpre
  · subst h; simp [statusToError]

/-- Witness for C10 at status 404. -/
theorem empty_body_skips_error_decode_witness :
    responseParse decodeTranslateResponse { statusCode := 404, body := Body.empty } =
      Except.error (statusToError 404 "") ∧
    statusToError 404 "" = DeeplError.notFound :=
  ⟨(empty_body_skips_error_decode decodeTranslateResponse 404 (by decide)).1, rfl⟩

/-- C5: Every call to `TranslateSentence` or `GetAccountStatus` has
exactly one of two outcomes: a present result with a nil error, or a
nil result pointer with a present error — never a partially filled
result alongside an error. -/
theorem calls_no_partial_results (c : Client) (env : Option String) (t : Transport)
    (text sourceLang targetLang : String) :
    (((TranslateSentence c env t text sourceLang targetLang).result.isSome = true ∧
      (TranslateSentence c env t text sourceLang targetLang).err = none) ∨
     ((TranslateSentence c env t text sourceLang targetLang).result = none ∧
      (TranslateSentence c env t text sourceLang targetLang).err.isSome = true)) ∧
    (((GetAccountStatus c env t).result.isSome = true ∧
      (GetAccountStatus c env t).err = none) ∨
     ((GetAccountStatus c env t).result = none ∧
      (GetAccountStatus c env t).err.isSome = true)) := by
  constructor
  · cases hr : translateRequest c env text sourceLang targetLang with
    | error e => right; simp [TranslateSentence, hr]
    | ok req =>
        cases ht : t req with
        | failure => right; simp [TranslateSentence, hr, ht]
        | ok resp =>
            cases hp : responseParse decodeTranslateResponse resp with
            | error e => right; simp [TranslateSentence, hr, ht, hp]
            | ok v => left; simp [TranslateSentence, hr, ht, hp]
  · cases hr : usageRequest c env with
    | error e => right; simp [GetAccountStatus, hr]
    | ok req =>
        cases ht : t req with
        | failure => right; simp [GetAccountStatus, hr, ht]
        | ok resp =>
            cases hp : responseParse decodeAccountStatus resp with
            | error e => right; simp [GetAccountStatus, hr, ht, hp]
            | ok v => left; simp [GetAccountStatus, hr, ht, hp]

/-- The wire form of one element of a well-formed `translations` array
(spec section 6). -/
def translationJson (p : String × String) : Json :=
  Json.obj [("detected_source_language", Json.str p.1), ("text", Json.str p.2)]

/-- The wire form of a well-formed translate success body
(spec section 6). -/
def translationsBody (ps : List (String × String)) : Body :=
  Body.wellFormed (Json.obj [("translations", Json.arr (ps.map translationJson))])

/-- The decoded form of one (detected language, text) pair. -/
def translationOfPair (p : String × String) : Translation :=
  { detectedSourceLanguage := p.1, text := p.2 }

lemma decodeTranslation_translationJson (p : String × String) :
    decodeTranslation (translationJson p) = some (translationOfPair p) := by
  simp [decodeTranslation, translationJson, translationOfPair, stringField, lookupField]

lemma decodeTranslations_map (ps : List (String × String)) :
    decodeTranslations (ps.map translationJson) = some (ps.map translationOfPair) := by
  induction ps with
  | nil => rfl
  | cons p ps ih =>
      simp [decodeTranslations, decodeTranslation_translationJson, ih]

lemma decodeBody_translationsBody (ps : List (String × String)) :
    decodeBody decodeTranslateResponse (translationsBody ps) =
      some { translations := ps.map translationOfPair } := by
  simp [decodeBody, translationsBody, decodeTranslateResponse, lookupField,
    decodeTranslations_map]

/-- C2: For every input, when the transport answers the built translate
request with status 200 and a well-formed translations body, the call
returns a non-error result whose (detected language, text) pairs equal
the pairs of the response array in order and content; a 200 response
whose body is not valid JSON instead yields the decode-category
error. -/
theorem translate_success_decode (c : Client) (env : Option String)
    (transport : Transport) (text sourceLang targetLang : String) (req : Request)
    (hreq : translateRequest c env text sourceLang targetLang = Except.ok req) :
    (∀ ps : List (String × String),
      transport req = TransportResult.ok { statusCode := 200, body := translationsBody ps } →
      TranslateSentence c env transport text sourceLang targetLang =
        { result := some { translations := ps.map translationOfPair },
          err := none, client := c }) ∧
    (transport req = TransportResult.ok { statusCode := 200, body := Body.malformed } →
      TranslateSentence c env transport text sourceLang targetLang =
        { result := none, err := some DeeplError.jsonParseFailed, client := c } ∧
      DeeplError.jsonParseFailed.isDecodeError = true) := by
  constructor
  · intro ps ht
    have hp : responseParse decodeTranslateResponse
        { statusCode := 200, body := translationsBody ps } =
        Except.ok { translations := ps.map translationOfPair } := by
      rw [responseParse_200]
      simp [decodeBody_translationsBody]
    simp [TranslateSentence, hreq, ht, hp]
  · intro ht
    have hp : responseParse decodeTranslateResponse
        { statusCode := 200, body := Body.malformed } =
        Except.error DeeplError.jsonParseFailed := by
      rw [responseParse_200]
      rfl
    refine ⟨?_, rfl⟩
    simp [TranslateSentence, hreq, ht, hp]

/-- A concrete client used by witnesses: base URL
`https://api.deepl.com`, default transport handle and logger. -/
def cEx : Client :=
  { baseURL := { scheme := "https", host := "api.deepl.com", path := "", query := [] },
    httpClient := defaultHTTPClient, logger := defaultLogger }

/-- Witness for C2: one-segment success body. -/
theorem translate_success_decode_witness :
    TranslateSentence cEx (some "secret")
        (fun _ => TransportResult.ok
          { statusCode := 200, body := translationsBody [("EN", "konnichiwa")] })
        "hello" "EN" "JA" =
      { result := some { translations := [translationOfPair ("EN", "konnichiwa")] },
        err := none, client := cEx } := by
  have h := translate_success_decode cEx (some "secret")
      (fun _ => TransportResult.ok
        { statusCode := 200, body := translationsBody [("EN", "konnichiwa")] })
      "hello" "EN" "JA" _ rfl
  exact h.1 [("EN", "konnichiwa")] rfl

/-- C3: A call with an absent or empty credential returns a
config-category error with a nil result, and its outcome does not
depend on the transport at all (no request is sent); conversely,
whenever the credential is read successfully, every request either call
builds carries it as the `auth_key` query parameter. -/
theorem credential_precondition (c : Client) (env : Option String)
    (text sourceLang targetLang : String) :
    ((env = none ∨ env = some "") →
      ∀ t1 t2 : Transport,
        TranslateSentence c env t1 text sourceLang targetLang =
          TranslateSentence c env t2 text sourceLang targetLang ∧
        GetAccountStatus c env t1 = GetAccountStatus c env t2 ∧
        (∃ e, (TranslateSentence c env t1 text sourceLang targetLang).err = some e ∧
          e.isConfigError = true ∧
          (TranslateSentence c env t1 text sourceLang targetLang).result = none) ∧
        (∃ e, (GetAccountStatus c env t1).err = some e ∧ e.isConfigError = true ∧
          (GetAccountStatus c env t1).result = none)) ∧
    (∀ key req, getAPIKey env = Except.ok key →
      (translateRequest c env text sourceLang targetLang = Except.ok req →
        ("auth_key", key) ∈ req.query) ∧
      (usageRequest c env = Except.ok req → ("auth_key", key) ∈ req.query)) := by
  constructor
  · rintro (rfl | rfl) t1 t2
    · exact ⟨rfl, rfl, ⟨DeeplError.apiKeyNotSet, rfl, rfl, rfl⟩,
        ⟨DeeplError.apiKeyNotSet, rfl, rfl, rfl⟩⟩
    · exact ⟨rfl, rfl, ⟨DeeplError.apiKeyEmpty, rfl, rfl, rfl⟩,
        ⟨DeeplError.apiKeyEmpty, rfl, rfl, rfl⟩⟩
  · intro key req hk
    cases env with
    | none => exact absurd hk (by simp [getAPIKey])
    | some val =>
        by_cases hv : val = ""
        · subst hv; exact absurd hk (by simp [getAPIKey])
        · have hkey : val = key := by
            simpa [getAPIKey, hv] using hk
          subst hkey
          constructor
          · intro hr
            have hq : Request.mk "POST" c.baseURL.scheme c.baseURL.host
                (pathJoin c.baseURL.path "v2" "translate")
                (c.baseURL.query ++
                  [("auth_key", val), ("text", text),
                   ("target_lang", targetLang), ("source_lang", sourceLang)])
                "Deepl-Go-Client" = req := by
              simpa [translateRequest, getAPIKey, hv] using hr
            rw [← hq]
            simp
          · intro hr
            have hq : Request.mk "POST" c.baseURL.scheme c.baseURL.host
                (pathJoin c.baseURL.path "v2" "usage")
                (c.baseURL.query ++ [("auth_key", val)])
                "Deepl-Go-Client" = req := by
              simpa [usageRequest, getAPIKey, hv] using hr
            rw [← hq]
            simp

/-- The translate request the witness client builds. -/
def reqEx : Request :=
  { method := "POST", scheme := "https", host := "api.deepl.com",
    path := "v2/translate",
    query := [("auth_key", "secret"), ("text", "hello"),
              ("target_lang", "JA"), ("source_lang", "EN")],
    userAgent := "Deepl-Go-Client" }

/-- Witness for C3: the unset-credential branch at a concrete client
and transport, and the auth-key invariant at a concrete request. -/
theorem credential_precondition_witness :
    (∃ e, (TranslateSentence cEx none (fun _ => TransportResult.failure)
        "hello" "EN" "JA").err = some e ∧ e.isConfigError = true ∧
      (TranslateSentence cEx none (fun _ => TransportResult.failure)
        "hello" "EN" "JA").result = none) ∧
    ("auth_key", "secret") ∈ reqEx.query := by
  constructor
  · exact ((credential_precondition cEx none "hello" "EN" "JA").1 (Or.inl rfl)
      (fun _ => TransportResult.failure) (fun _ => TransportResult.failure)).2.2.1
  · exact (((credential_precondition cEx (some "secret") "hello" "EN" "JA").2)
      "secret" reqEx rfl).1 rfl

/-- C6: With a readable credential and a query-free base URL,
`TranslateSentence` builds a POST request to `<base>/v2/translate`
whose query parameters are exactly `auth_key`, `text`, `target_lang`,
`source_lang` with the given values, and `GetAccountStatus` builds a
POST request to `<base>/v2/usage` whose only query parameter is
`auth_key`; both set the fixed `User-Agent` header
`Deepl-Go-Client`. -/
theorem request_shape (c : Client) (env : Option String)
    (key text sourceLang targetLang : String)
    (hkey : getAPIKey env = Except.ok key) (hq : c.baseURL.query = []) :
    translateRequest c env text sourceLang targetLang =
      Except.ok
        { method := "POST", scheme := c.baseURL.scheme, host := c.baseURL.host,
          path := pathJoin c.baseURL.path "v2" "translate",
          query := [("auth_key", key), ("text", text),
                    ("target_lang", targetLang), ("source_lang", sourceLang)],
          userAgent := "Deepl-Go-Client" } ∧
    usageRequest c env =
      Except.ok
        { method := "POST", scheme := c.baseURL.scheme, host := c.baseURL.host,
          path := pathJoin c.baseURL.path "v2" "usage",
          query := [("auth_key", key)],
          userAgent := "Deepl-Go-Client" } := by
  constructor
  · simp [translateRequest, hkey, hq]
  · simp [usageRequest, hkey, hq]

/-- Witness for C6 at the concrete witness client. -/
theorem request_shape_witness :
    translateRequest cEx (some "secret") "hello" "EN" "JA" = Except.ok reqEx ∧
    usageRequest cEx (some "secret") =
      Except.ok
        { method := "POST", scheme := "https", host := "api.deepl.com",
          path := "v2/usage", query := [("auth_key", "secret")],
          userAgent := "Deepl-Go-Client" } := by
  have h := request_shape cEx (some "secret") "secret" "hello" "EN" "JA" rfl rfl
  exact ⟨h.1, h.2⟩

/-- C7: `New` returns the config-category parse error exactly when the
base URL string fails to parse; otherwise it returns a client holding
the parsed base URL, the default transport handle, and the supplied
logger — or the default logger when none is given.  `New` is a pure
function of the URL string and the logger: no transport appears in its
type, so no network activity occurs during construction. -/
theorem New_url_parse (s : String) (lg : Option Logger) :
    (parseURL s = none →
      New s lg = Except.error DeeplError.parseURLFailed ∧
      DeeplError.parseURLFailed.isConfigError = true) ∧
    (∀ u, parseURL s = some u →
      New s lg = Except.ok
        { baseURL := u, httpClient := defaultHTTPClient,
          logger := lg.getD defaultLogger }) := by
  constructor
  · intro h
    exact ⟨by simp [New, h], rfl⟩
  · intro u h
    cases lg with
    | none => simp [New, h, Option.getD]
    | some l => simp [New, h, Option.getD]

/-- Witness for C7: a well-formed and a malformed base URL string. -/
theorem New_url_parse_witness :
    New "https://api.deepl.com" none =
      Except.ok
        { baseURL := { scheme := "https", host := "api.deepl.com",
                       path := "", query := [] },
          httpClient := defaultHTTPClient, logger := defaultLogger } ∧
    New "\x00" none = Except.error DeeplError.parseURLFailed := by
  constructor
  · exact (New_url_parse "https://api.deepl.com" none).2
      { scheme := "https", host := "api.deepl.com", path := "", query := [] } rfl
  · exact ((New_url_parse "\x00" none).1 (by decide)).1

lemma TranslateSentence_client_eq (c : Client) (env : Option String) (t : Transport)
    (text sourceLang targetLang : String) :
    (TranslateSentence c env t text sourceLang targetLang).client = c := by
  cases hr : translateRequest c env text sourceLang targetLang with
  | error e => simp [TranslateSentence, hr]
  | ok req =>
      cases ht : t req with
      | failure => simp [TranslateSentence, hr, ht]
      | ok resp =>
          cases hp : responseParse decodeTranslateResponse resp with
          | error e => simp [TranslateSentence, hr, ht, hp]
          | ok v => simp [TranslateSentence, hr, ht, hp]

lemma GetAccountStatus_client_eq (c : Client) (env : Option String) (t : Transport) :
    (GetAccountStatus c env t).client = c := by
  cases hr : usageRequest c env with
  | error e => simp [GetAccountStatus, hr]
  | ok req =>
      cases ht : t req with
      | failure => simp [GetAccountStatus, hr, ht]
      | ok resp =>
          cases hp : responseParse decodeAccountStatus resp with
          | error e => simp [GetAccountStatus, hr, ht, hp]
          | ok v => simp [GetAccountStatus, hr, ht, hp]

/-- C8: Repeating the same call with identical arguments, identical
credential environment and identical transport behaviour — the second
run starting from the client record the first run returned — yields the
identical outcome: the client keeps no hidden state that changes the
result between calls. -/
theorem calls_idempotent (c : Client) (env : Option String) (t : Transport)
    (text sourceLang targetLang : String) :
    TranslateSentence (TranslateSentence c env t text sourceLang targetLang).client
        env t text sourceLang targetLang =
      TranslateSentence c env t text sourceLang targetLang ∧
    GetAccountStatus (GetAccountStatus c env t).client env t =
      GetAccountStatus c env t := by
  rw [TranslateSentence_client_eq, GetAccountStatus_client_eq]
  exact ⟨rfl, rfl⟩

/-- C9: Every call to `TranslateSentence` or `GetAccountStatus` leaves
the client record — all of its fields: base URL, transport handle,
logger — unchanged: each call only reads them, building its request on
a private copy of the base URL. -/
theorem calls_preserve_client (c : Client) (env : Option String) (t : Transport)
    (text sourceLang targetLang : String) :
    (TranslateSentence c env t text sourceLang targetLang).client = c ∧
    (GetAccountStatus c env t).client = c :=
  ⟨TranslateSentence_client_eq c env t text sourceLang targetLang,
   GetAccountStatus_client_eq c env t⟩

end Deepl
